import Mathlib

/-!
Verification of the e-commerce checkout / cart error analyzer
(`ecommerce_checkout_analysis.py`) against its natural-language
specification.

The development shallowly embeds the three core stages of the pipeline:

* the line parser (`parse_log_line`, backed by `matchELB`, which models the
  anchored regular expression
  `(\S+)\s+` × 12 `"([^"]*)"\s+"([^"]*)"\s+(\S+)\s+(\S+)` used by the code);
* the classifier (`is_checkout_related`, `categorize_checkout_stage`,
  `get_pattern_category`, `is_bot_traffic`, `is_mobile_traffic`);
* the aggregation engine (`all_requests`, `checkout_requests`,
  `checkout_errors`, `aggState`) together with the read-time derived
  metrics (`bucket_error_rate`, `overallSummary`, `trendOf`).

Machine floats of the source are embedded as `Rat`; Python's arbitrary
precision integers as `Int`.  Python's `float(...)` / `int(...)`
conversions are modelled by `pyFloat` / `pyInt` on the decimal-literal
grammar actually exercised by ELB logs (finite decimals with optional
sign, decimal point and exponent; no underscores, `inf` or `nan`).
Strings are handled over `List Char`; the source data is ASCII, so ASCII
case folding matches Python's `str.lower`.
-/

/-- Whitespace class of the `\s` used by the source's regular expression,
restricted to ASCII. -/
def isSpc (c : Char) : Bool :=
  c = ' ' || c = '\t' || c = '\n' || c = '\r' || c = '\x0b' || c = '\x0c'

/-- ASCII lowering, modelling `str.lower()` on ASCII input. -/
def lowerStr (s : String) : String :=
  String.mk (s.toList.map Char.toLower)

/-- Substring check: `pat` occurs contiguously inside `s`.  Models both
Python's `pat in s` and `re.search` over a regex that is a literal
alternation. -/
def substrB (pat s : String) : Bool :=
  decide (pat.toList <:+: s.toList)

/-- `s.split(':')[0]`: the text before the first colon (the whole string
when there is no colon). -/
def beforeColon (s : String) : String :=
  String.mk (s.toList.takeWhile (fun c => c ≠ ':'))

/-- `s.strip('"')`: remove every leading and trailing double-quote. -/
def stripQuotes (s : String) : String :=
  String.mk (((s.toList.dropWhile (fun c => c = '"')).reverse.dropWhile
    (fun c => c = '"')).reverse)

/-- `s.split(c)` for a single separator character, keeping empty pieces,
exactly as Python's `str.split(' ')` does. -/
def splitOnChar (c : Char) : List Char → List (List Char)
  | [] => [[]]
  | x :: xs =>
    match splitOnChar c xs with
    | [] => [[]]
    | h :: t => if x = c then [] :: h :: t else (x :: h) :: t

/-- Python slice `s[a:b]` on a string viewed as its character list. -/
def sliceStr (s : String) (a b : Nat) : String :=
  String.mk ((s.toList.drop a).take (b - a))

/-! ### Numeric conversions (`float(...)` / `int(...)`) -/

/-- Value of a digit string, most significant first. -/
def natOfDigits (ds : List Char) : Nat :=
  ds.foldl (fun n c => n * 10 + (c.toNat - 48)) 0

/-- Split a leading run of decimal digits from the rest. -/
def takeDigits (cs : List Char) : List Char × List Char :=
  (cs.takeWhile Char.isDigit, cs.dropWhile Char.isDigit)

/-- Exact value of the decimal literal with integer digits `ip`, fraction
digits `fp` and decimal exponent `e`, namely
`(ip.fp) × 10 ^ e`, built with `mkRat` over integer arithmetic. -/
def decValue (ip fp : List Char) (e : Int) : Rat :=
  if 0 ≤ e then
    mkRat ((natOfDigits (ip ++ fp) * 10 ^ e.toNat : Nat) : Int) (10 ^ fp.length)
  else
    mkRat ((natOfDigits (ip ++ fp) : Nat) : Int) (10 ^ (fp.length + (-e).toNat))

/-- Exponent tail of a float literal: optional sign then digits,
consuming the whole remaining input. -/
def pyExpTail (cs : List Char) : Option Int :=
  let sc : Int × List Char :=
    match cs with
    | '+' :: r => (1, r)
    | '-' :: r => (-1, r)
    | _ => (1, cs)
  let dr := takeDigits sc.2
  if dr.1.isEmpty || !dr.2.isEmpty then none
  else some (sc.1 * (natOfDigits dr.1 : Int))

/-- Optional `e`/`E` exponent after a mantissa; `0` when the input ends. -/
def pyExpOf (cs : List Char) : Option Int :=
  match cs with
  | [] => some 0
  | 'e' :: rest => pyExpTail rest
  | 'E' :: rest => pyExpTail rest
  | _ => none

/-- Unsigned float literal: `digits`, `digits.`, `digits.digits` or
`.digits`, each with an optional exponent. -/
def pyFloatMag (cs : List Char) : Option Rat :=
  let ir := takeDigits cs
  match ir.2 with
  | '.' :: cs2 =>
    let fr := takeDigits cs2
    if ir.1.isEmpty && fr.1.isEmpty then none
    else (pyExpOf fr.2).map (fun e => decValue ir.1 fr.1 e)
  | _ =>
    if ir.1.isEmpty then none
    else (pyExpOf ir.2).map (fun e => decValue ir.1 [] e)

/-- Strip surrounding whitespace, as Python's numeric constructors do. -/
def stripPy (cs : List Char) : List Char :=
  ((cs.dropWhile isSpc).reverse.dropWhile isSpc).reverse

/-- Model of Python's `float(s)` on finite decimal literals: `some q` when
the text is a valid literal of value `q`, `none` when `float` would raise
`ValueError`. -/
def pyFloat (s : String) : Option Rat :=
  match stripPy s.toList with
  | '+' :: rest => pyFloatMag rest
  | '-' :: rest => (pyFloatMag rest).map (fun q => -q)
  | cs => pyFloatMag cs

/-- Unsigned integer literal consuming the whole input. -/
def pyIntMag (cs : List Char) : Option Nat :=
  let dr := takeDigits cs
  if dr.1.isEmpty || !dr.2.isEmpty then none else some (natOfDigits dr.1)

/-- Model of Python's `int(s)` on decimal literals: `none` when `int`
would raise `ValueError`. -/
def pyInt (s : String) : Option Int :=
  match stripPy s.toList with
  | '+' :: rest => (pyIntMag rest).map (fun n => (n : Int))
  | '-' :: rest => (pyIntMag rest).map (fun n => -(n : Int))
  | cs => (pyIntMag cs).map (fun n => (n : Int))

/-! ### The sixteen-group ELB regular expression -/

/-- The sixteen capture groups of the source's ELB log regex, in order. -/
structure ELBGroups where
  typ : String
  time : String
  elb : String
  client : String
  target : String
  reqTime : String
  backTime : String
  respTime : String
  elbStatus : String
  backStatus : String
  recvBytes : String
  sentBytes : String
  request : String
  userAgent : String
  sslCipher : String
  sslProto : String
deriving DecidableEq, Repr

/-- One `(\S+)` group: a nonempty maximal run of non-whitespace. -/
def takeTok (cs : List Char) : Option (String × List Char) :=
  let t := cs.takeWhile (fun c => !isSpc c)
  if t.isEmpty then none else some (String.mk t, cs.drop t.length)

/-- One `\s+` separator: a nonempty maximal run of whitespace. -/
def skipSpaces1 (cs : List Char) : Option (List Char) :=
  let sp := cs.takeWhile isSpc
  if sp.isEmpty then none else some (cs.drop sp.length)

/-- One `"([^"]*)"` group: a double-quoted field that cannot itself
contain a double quote. -/
def takeQuoted (cs : List Char) : Option (String × List Char) :=
  match cs with
  | '"' :: rest =>
    let q := rest.takeWhile (fun c => c ≠ '"')
    match rest.drop q.length with
    | '"' :: rest2 => some (String.mk q, rest2)
    | _ => none
  | _ => none

/-- One `(\S+)\s+` step: a token followed by mandatory whitespace. -/
def tokSp (cs : List Char) : Option (String × List Char) :=
  match takeTok cs with
  | none => none
  | some tr =>
    match skipSpaces1 tr.2 with
    | none => none
    | some cs2 => some (tr.1, cs2)

/-- `n` repetitions of `(\S+)\s+`, returning the `n` tokens in order.  A
`some` result always carries exactly `n` tokens. -/
def tokSpN : Nat → List Char → Option (List String × List Char)
  | 0, cs => some ([], cs)
  | n + 1, cs =>
    match tokSp cs with
    | none => none
    | some tr =>
      match tokSpN n tr.2 with
      | none => none
      | some pr => some (tr.1 :: pr.1, pr.2)

/-- Tail of the ELB pattern after the twelve unquoted fields:
`"([^"]*)"\s+"([^"]*)"\s+(\S+)\s+(\S+)`, assembled with the twelve
already-read tokens (the fallback branch is unreachable because
`tokSpN 12` always supplies twelve tokens). -/
def matchELBTail (ts : List String) (cs : List Char) : Option ELBGroups :=
  Option.bind (takeQuoted cs) fun p12 =>
  Option.bind (skipSpaces1 p12.2) fun cs13 =>
  Option.bind (takeQuoted cs13) fun p13 =>
  Option.bind (skipSpaces1 p13.2) fun cs14 =>
  Option.bind (tokSp cs14) fun p14 =>
  Option.bind (takeTok p14.2) fun p15 =>
  match ts with
  | [t0, t1, t2, t3, t4, t5, t6, t7, t8, t9, t10, t11] =>
    some ⟨t0, t1, t2, t3, t4, t5, t6, t7, t8, t9, t10, t11,
          p12.1, p13.1, p14.1, p15.1⟩
  | _ => none

/-- `re.match` of the source's ELB pattern against a line: twelve
unquoted fields, two quoted fields, two unquoted fields; anchored at the
start, trailing text ignored.  Because `\S+` can never yield characters
to a following `\s+`, greedy matching with backtracking coincides with
this deterministic maximal-munch reading. -/
def matchELB (s : String) : Option ELBGroups :=
  match tokSpN 12 s.toList with
  | none => none
  | some pr => matchELBTail pr.1 pr.2

/-! ### The parsed record and `parse_log_line` -/

/-- The dictionary built by `parse_log_line`, with the source's keys as
field names.  Latencies are rationals (`-1` is the unmeasured sentinel);
statuses are optional integers (`None` for the `-` sentinel). -/
structure LogRecord where
  timestamp : String
  client_ip : String
  target_ip : Option String
  request_processing_time : Rat
  backend_processing_time : Rat
  response_processing_time : Rat
  elb_status_code : Option Int
  backend_status_code : Option Int
  received_bytes : Int
  sent_bytes : Int
  request : String
  user_agent : String
  ssl_cipher : String
  ssl_protocol : String
deriving DecidableEq, Repr

/-- `parse_log_line`: match the ELB regex, then convert the groups
field-by-field; any `ValueError` of a numeric conversion is caught and
yields `none`, exactly as the source's `try`/`except` returns `None`. -/
def parse_log_line (line : String) : Option LogRecord :=
  Option.bind (matchELB line) fun g =>
  Option.bind (if g.reqTime = "-1" then some (-1 : Rat) else pyFloat g.reqTime) fun rqt =>
  Option.bind (if g.backTime = "-1" then some (-1 : Rat) else pyFloat g.backTime) fun bqt =>
  Option.bind (if g.respTime = "-1" then some (-1 : Rat) else pyFloat g.respTime) fun rst =>
  Option.bind (if g.elbStatus = "-" then some none else (pyInt g.elbStatus).map some) fun elbS =>
  Option.bind (if g.backStatus = "-" then some none else (pyInt g.backStatus).map some) fun backS =>
  Option.bind (if g.recvBytes = "-" then some (0 : Int) else pyInt g.recvBytes) fun rb =>
  Option.bind (if g.sentBytes = "-" then some (0 : Int) else pyInt g.sentBytes) fun sb =>
  some
    { timestamp := g.time
      client_ip := beforeColon g.client
      target_ip := if g.target = "-" then none else some (beforeColon g.target)
      request_processing_time := rqt
      backend_processing_time := bqt
      response_processing_time := rst
      elb_status_code := elbS
      backend_status_code := backS
      received_bytes := rb
      sent_bytes := sb
      request := g.request
      user_agent := g.userAgent
      ssl_cipher := if g.sslCipher = "-" then "" else g.sslCipher
      ssl_protocol := if g.sslProto = "-" then "" else g.sslProto }

/-! ### Classifier -/

/-- The fixed checkout URL fragment list of the source, in order
(duplicates included). -/
def checkout_patterns : List String :=
  ["/cart/", "/shopping-cart/", "/basket/", "/bag/", "checkout/cart",
   "cart/add", "cart/update", "cart/remove",
   "/checkout/", "checkout/", "onepage", "guest-checkout", "checkout/onepage",
   "checkout/success", "checkout/complete", "checkout/review", "checkout/billing",
   "checkout/shipping", "checkout/payment",
   "/payment/", "/pay/", "paypal", "stripe", "amazon-pay", "amazonpay",
   "apple-pay", "applepay", "google-pay", "googlepay", "klarna", "afterpay",
   "affirm", "/billing/", "credit-card", "creditcard",
   "/order/", "/orders/", "order/success", "order/complete", "order/confirmation",
   "order-confirmation", "checkout/success", "thank-you", "thankyou",
   "receipt", "order-receipt"]

/-- `is_checkout_related`: case-insensitive search of the alternation of
`checkout_patterns` (all literal fragments) inside the URL. -/
def is_checkout_related (url : String) : Bool :=
  checkout_patterns.any (fun p => substrB p (lowerStr url))

/-- `any(term in url_lower for term in ts)`. -/
def anyTerm (u : String) (ts : List String) : Bool :=
  ts.any (fun t => substrB t u)

/-- The funnel stages returned by `categorize_checkout_stage`; each
constructor stands for the corresponding label string of the source
(`CartOperations` for `'Cart Operations'`, and so on, with
`OtherEcommerce` for `'Other E-commerce'`). -/
inductive FunnelStage where
  | CartOperations
  | CheckoutInitiation
  | ShippingAddress
  | PaymentProcessing
  | OrderCompletion
  | AccountAuthentication
  | GeneralCheckout
  | OtherEcommerce
deriving DecidableEq, Repr

/-- `categorize_checkout_stage`: the ordered first-match-wins chain of
substring tests over the lowered URL. -/
def categorize_checkout_stage (url : String) : FunnelStage :=
  let u := lowerStr url
  if anyTerm u ["cart", "basket", "bag", "shopping-cart"] then
    FunnelStage.CartOperations
  else if anyTerm u ["checkout/start", "checkout/begin", "checkout/init"] then
    FunnelStage.CheckoutInitiation
  else if anyTerm u ["shipping", "delivery", "address"] then
    FunnelStage.ShippingAddress
  else if anyTerm u ["payment", "pay", "billing", "paypal", "stripe", "credit"] then
    FunnelStage.PaymentProcessing
  else if anyTerm u ["success", "complete", "confirmation", "receipt", "thank"] then
    FunnelStage.OrderCompletion
  else if anyTerm u ["login", "register", "account", "signup"] then
    FunnelStage.AccountAuthentication
  else if substrB "checkout" u then
    FunnelStage.GeneralCheckout
  else
    FunnelStage.OtherEcommerce

/-- The pattern categories returned by `get_pattern_category`; each
constructor stands for the corresponding label string of the source
(`ShoppingCart` for `'Shopping Cart'`, and so on). -/
inductive PatternCategory where
  | ShoppingCart
  | PaymentProcessing
  | OrderCompletion
  | CheckoutProcess
  | OtherCheckout
deriving DecidableEq, Repr

/-- `get_pattern_category`: the second, coarser ordered first-match-wins
chain over the lowered URL. -/
def get_pattern_category (url : String) : PatternCategory :=
  let u := lowerStr url
  if anyTerm u ["/cart/", "cart/add", "cart/update", "cart/remove", "/basket/", "/bag/"] then
    PatternCategory.ShoppingCart
  else if anyTerm u ["paypal", "stripe", "amazon-pay", "apple-pay", "google-pay",
                     "klarna", "afterpay", "affirm", "/payment/", "/pay/", "/billing/",
                     "credit-card"] then
    PatternCategory.PaymentProcessing
  else if anyTerm u ["/order/", "/orders/", "order/success", "order/complete",
                     "checkout/success", "thank-you", "thankyou", "receipt",
                     "confirmation"] then
    PatternCategory.OrderCompletion
  else if anyTerm u ["/checkout/", "checkout/", "onepage", "guest-checkout"] then
    PatternCategory.CheckoutProcess
  else
    PatternCategory.OtherCheckout

/-- The bot keyword list of the source (all literal fragments). -/
def bot_patterns : List String :=
  ["bot", "crawler", "spider", "scraper", "curl", "wget", "python", "java",
   "http_request", "postman", "insomnia", "user-agent", "test", "monitor",
   "uptime", "pingdom", "datadog", "newrelic", "googlebot", "bingbot",
   "facebookexternalhit", "twitterbot", "linkedinbot", "whatsapp", "telegram"]

/-- `is_bot_traffic`: case-insensitive search of the bot keyword
alternation inside the user agent. -/
def is_bot_traffic (ua : String) : Bool :=
  bot_patterns.any (fun p => substrB p (lowerStr ua))

/-- The mobile keyword list of the source. -/
def mobile_patterns : List String :=
  ["mobile", "android", "iphone", "ipad", "tablet", "phone"]

/-- `is_mobile_traffic`: case-insensitive search of the mobile keyword
alternation inside the user agent. -/
def is_mobile_traffic (ua : String) : Bool :=
  mobile_patterns.any (fun p => substrB p (lowerStr ua))

/-! ### Aggregation engine

The source's `analyze_logs` loop appends each parsed record with a truthy
backend status to `all_requests`, additionally classifies it into
`checkout_requests` when its request line has a URL part matching the
checkout test, and into `checkout_errors` when the backend status is
moreover at least 500.  The breakdown tables of the `analyze_*` readers
are counts over these three lists; `aggState` packages them. -/

/-- A record enriched with the derived keys the loop stores on checkout
entries (`url`, `checkout_stage`, `pattern_category`, `is_bot`,
`is_mobile`). -/
structure CRecord where
  base : LogRecord
  url : String
  checkout_stage : FunnelStage
  pattern_category : PatternCategory
  is_bot : Bool
  is_mobile : Bool
deriving DecidableEq, Repr

/-- Truthiness of `log_entry.get('backend_status_code')`: present and
nonzero. -/
def analyzableB (r : LogRecord) : Bool :=
  match r.backend_status_code with
  | some n => decide (n ≠ 0)
  | none => false

/-- The backend status as an integer, in contexts where the source has
already established that it is present. -/
def bscVal (r : LogRecord) : Int :=
  r.backend_status_code.getD 0

/-- `request['timestamp'][:10]`. -/
def dateOf (r : LogRecord) : String :=
  sliceStr r.timestamp 0 10

/-- `request['timestamp'][11:13]`. -/
def hourOf (r : LogRecord) : String :=
  sliceStr r.timestamp 11 13

/-- `request_processing_time + backend_processing_time +
response_processing_time`: the combined latency of one record. -/
def combinedLatency (r : LogRecord) : Rat :=
  r.request_processing_time + r.backend_processing_time + r.response_processing_time

/-- The classification step of the loop body: split the request line on
single spaces, require at least two parts, strip quotes from the URL
part, and keep the record only when the URL is checkout-related. -/
def classify (r : LogRecord) : Option CRecord :=
  let parts := (splitOnChar ' ' r.request.toList).map String.mk
  if 2 ≤ parts.length then
    let url := stripQuotes (parts.getD 1 "")
    if is_checkout_related url then
      some ⟨r, url, categorize_checkout_stage url, get_pattern_category url,
            is_bot_traffic r.user_agent, is_mobile_traffic r.user_agent⟩
    else none
  else none

/-- `all_requests`: every parsed record with a truthy backend status. -/
def all_requests (rs : List LogRecord) : List LogRecord :=
  rs.filter analyzableB

/-- `checkout_requests`: the analyzable records whose URL is
checkout-related, in arrival order, with their derived keys. -/
def checkout_requests (rs : List LogRecord) : List CRecord :=
  (all_requests rs).filterMap classify

/-- `checkout_errors`: the checkout records with backend status `≥ 500`. -/
def checkout_errors (rs : List LogRecord) : List CRecord :=
  (checkout_requests rs).filter (fun c => decide (500 ≤ bscVal c.base))

/-- The final aggregate tables read by the report sections: scalar
totals, the date/hour `total`/`checkout`/`errors` tables of
`analyze_daily_trends` and `analyze_hourly_patterns`, the
requests/errors tables keyed by funnel stage (`analyze_checkout_funnel`)
and by pattern category (`analyze_pattern_breakdown`), the status-code
and stage-by-status error tables of `analyze_error_types`, and the two
latency sample sequences of `analyze_performance_correlation`. -/
structure AggState where
  totalRequests : Nat
  totalCheckout : Nat
  totalErrors : Nat
  dateTotal : String → Nat
  dateCheckout : String → Nat
  dateErrors : String → Nat
  hourTotal : String → Nat
  hourCheckout : String → Nat
  hourErrors : String → Nat
  stageReq : FunnelStage → Nat
  stageErr : FunnelStage → Nat
  catReq : PatternCategory → Nat
  catErr : PatternCategory → Nat
  statusErr : Int → Nat
  stageStatusErr : FunnelStage → Int → Nat
  successLat : List Rat
  errorLat : List Rat

/-- Run the engine over a stream of parsed records and expose every
breakdown table. -/
def aggState (rs : List LogRecord) : AggState where
  totalRequests := (all_requests rs).length
  totalCheckout := (checkout_requests rs).length
  totalErrors := (checkout_errors rs).length
  dateTotal := fun d => (all_requests rs).countP (fun r => decide (dateOf r = d))
  dateCheckout := fun d => (checkout_requests rs).countP (fun c => decide (dateOf c.base = d))
  dateErrors := fun d => (checkout_errors rs).countP (fun c => decide (dateOf c.base = d))
  hourTotal := fun h => (all_requests rs).countP (fun r => decide (hourOf r = h))
  hourCheckout := fun h => (checkout_requests rs).countP (fun c => decide (hourOf c.base = h))
  hourErrors := fun h => (checkout_errors rs).countP (fun c => decide (hourOf c.base = h))
  stageReq := fun st => (checkout_requests rs).countP (fun c => decide (c.checkout_stage = st))
  stageErr := fun st => (checkout_errors rs).countP (fun c => decide (c.checkout_stage = st))
  catReq := fun p => (checkout_requests rs).countP (fun c => decide (c.pattern_category = p))
  catErr := fun p => (checkout_errors rs).countP (fun c => decide (c.pattern_category = p))
  statusErr := fun n => (checkout_errors rs).countP (fun c => decide (bscVal c.base = n))
  stageStatusErr := fun st n =>
    (checkout_errors rs).countP
      (fun c => decide (c.checkout_stage = st) && decide (bscVal c.base = n))
  successLat :=
    ((checkout_requests rs).filter (fun c => decide (bscVal c.base < 400))).filterMap
      (fun c => if 0 < combinedLatency c.base then some (combinedLatency c.base) else none)
  errorLat :=
    (checkout_errors rs).filterMap
      (fun c => if 0 < combinedLatency c.base then some (combinedLatency c.base) else none)

/-- Shard merge: counters add pointwise, latency sequences concatenate. -/
def mergeAgg (s t : AggState) : AggState where
  totalRequests := s.totalRequests + t.totalRequests
  totalCheckout := s.totalCheckout + t.totalCheckout
  totalErrors := s.totalErrors + t.totalErrors
  dateTotal := fun d => s.dateTotal d + t.dateTotal d
  dateCheckout := fun d => s.dateCheckout d + t.dateCheckout d
  dateErrors := fun d => s.dateErrors d + t.dateErrors d
  hourTotal := fun h => s.hourTotal h + t.hourTotal h
  hourCheckout := fun h => s.hourCheckout h + t.hourCheckout h
  hourErrors := fun h => s.hourErrors h + t.hourErrors h
  stageReq := fun st => s.stageReq st + t.stageReq st
  stageErr := fun st => s.stageErr st + t.stageErr st
  catReq := fun p => s.catReq p + t.catReq p
  catErr := fun p => s.catErr p + t.catErr p
  statusErr := fun n => s.statusErr n + t.statusErr n
  stageStatusErr := fun st n => s.stageStatusErr st n + t.stageStatusErr st n
  successLat := s.successLat ++ t.successLat
  errorLat := s.errorLat ++ t.errorLat

/-! ### Read-time derived metrics -/

/-- Per-bucket error rate as computed by the daily and hourly readers:
`errors / checkout * 100` with a guarded zero when the bucket has no
checkout requests. -/
def bucket_error_rate (errors checkout : Nat) : Rat :=
  if 0 < checkout then (errors : Rat) / (checkout : Rat) * 100 else 0

/-- The overall summary pair (checkout error rate, checkout traffic
percentage) exactly as `analyze_overall_summary` computes it, guards
included. -/
def overallSummary (total_requests total_checkout total_errors : Nat) : Rat × Rat :=
  if 0 < total_checkout then
    ((total_errors : Rat) / (total_checkout : Rat) * 100,
     if 0 < total_requests then (total_checkout : Rat) / (total_requests : Rat) * 100 else 0)
  else (0, 0)

/-- The three day-over-day trend labels of `analyze_daily_trends`
(`worse` for `WORSE`, `better` for `BETTER`, `stable` for `STABLE`). -/
inductive Trend where
  | worse
  | better
  | stable
deriving DecidableEq, Repr

/-- One trend comparison: strictly more than half a percentage point up
is worsening, strictly more than half a point down is improving,
anything else is stable. -/
def trendOf (prev cur : Rat) : Trend :=
  if prev + 1 / 2 < cur then Trend.worse
  else if cur < prev - 1 / 2 then Trend.better
  else Trend.stable

/-- The trend column for a date-sorted list of daily error rates: no
label for the first day, then one comparison per consecutive pair. -/
def dailyTrendLabels : List Rat → List Trend
  | [] => []
  | r :: rs => dailyTrendStep r rs
where
  dailyTrendStep : Rat → List Rat → List Trend
    | _, [] => []
    | prev, c :: cs => trendOf prev c :: dailyTrendStep c cs

/-! ### Concrete sample inputs

Records and lines used to instantiate the theorems below on concrete
data.  Latency values are written with `mkRat` so that all fields are in
reduced normal form. -/

/-- An analyzable, non-checkout record (`GET /home`, backend 200). -/
def rHome : LogRecord :=
  ⟨"2024-01-02T03:04:05.123456Z", "9.9.9.9", some "10.0.0.2", mkRat 1 10,
   mkRat 3 100, mkRat 1 100, some 200, some 200, 500, 1000,
   "GET /home HTTP/1.1", "Mozilla/5.0 (Macintosh)", "", ""⟩

/-- A record with a checkout URL but no backend status. -/
def rNone : LogRecord :=
  ⟨"2024-01-02T03:04:05.123456Z", "1.2.3.4", none, mkRat 1 10, mkRat 1 5,
   mkRat 1 5, some 504, none, 100, 200, "GET /cart/add HTTP/1.1",
   "Mozilla/5.0", "", ""⟩

/-- A checkout record with backend status 200 and combined latency 1/2. -/
def rOk : LogRecord :=
  ⟨"2024-01-02T03:04:05.123456Z", "1.2.3.4", some "10.0.0.1", mkRat 1 10,
   mkRat 1 5, mkRat 1 5, some 200, some 200, 100, 200,
   "GET /cart/add HTTP/1.1", "Mozilla/5.0", "", ""⟩

/-- The classified form of `rOk`. -/
def cOk : CRecord :=
  ⟨rOk, "/cart/add", FunnelStage.CartOperations, PatternCategory.ShoppingCart,
   false, false⟩

/-- A checkout record with backend status 404 and combined latency 1/2:
analyzable, checkout-related, not an error in the `≥ 500` sense, with
positive combined latency. -/
def r404 : LogRecord :=
  ⟨"2024-01-02T03:04:05.123456Z", "1.2.3.4", some "10.0.0.1", mkRat 1 10,
   mkRat 1 5, mkRat 1 5, some 404, some 404, 100, 200,
   "GET /checkout/payment HTTP/1.1", "Mozilla/5.0", "", ""⟩

/-- A checkout error record (backend status 502, combined latency 1/2). -/
def r502 : LogRecord :=
  ⟨"2024-01-02T03:04:05.123456Z", "1.2.3.4", some "10.0.0.1", mkRat 1 4,
   mkRat 1 8, mkRat 1 8, some 502, some 502, 100, 200,
   "GET /checkout/payment HTTP/1.1", "Mozilla/5.0", "", ""⟩

/-- A line that does not have the sixteen-field shape. -/
def lineShort : String := "too short"

/-- A well-shaped line whose first latency field is the non-sentinel,
non-numeric text `abc`. -/
def lineBadNum : String :=
  "h 2024-01-02T03:04:05Z elb 1.2.3.4:80 10.0.0.1:8080 abc 0.2 0.1 200 200 100 200 \"GET /cart/ HTTP/1.1\" \"ua\" - -"

/-- The capture groups of `lineBadNum`. -/
def gBadNum : ELBGroups :=
  ⟨"h", "2024-01-02T03:04:05Z", "elb", "1.2.3.4:80", "10.0.0.1:8080", "abc",
   "0.2", "0.1", "200", "200", "100", "200", "GET /cart/ HTTP/1.1", "ua",
   "-", "-"⟩

/-- A well-shaped line whose backend-status field is the non-sentinel,
non-numeric text `5O2`. -/
def lineBadStatus : String :=
  "h 2024-01-02T03:04:05Z elb 1.2.3.4:80 10.0.0.1:8080 0.1 0.2 0.1 200 5O2 100 200 \"GET /cart/ HTTP/1.1\" \"ua\" - -"

/-- The capture groups of `lineBadStatus`. -/
def gBadStatus : ELBGroups :=
  ⟨"h", "2024-01-02T03:04:05Z", "elb", "1.2.3.4:80", "10.0.0.1:8080", "0.1",
   "0.2", "0.1", "200", "5O2", "100", "200", "GET /cart/ HTTP/1.1", "ua",
   "-", "-"⟩

/-- A line carrying the `-1` latency sentinels and `-` absence sentinels. -/
def lineSent : String :=
  "h 2024-01-02T03:04:05Z elb 1.2.3.4:80 - -1 -1 -1 504 - - - \"GET /x HTTP/1.1\" \"ua\" - -"

/-- The capture groups of `lineSent`. -/
def gSent : ELBGroups :=
  ⟨"h", "2024-01-02T03:04:05Z", "elb", "1.2.3.4:80", "-", "-1", "-1", "-1",
   "504", "-", "-", "-", "GET /x HTTP/1.1", "ua", "-", "-"⟩

/-- The record parsed from `lineSent`. -/
def rSent : LogRecord :=
  ⟨"2024-01-02T03:04:05Z", "1.2.3.4", none, -1, -1, -1, some 504, none, 0, 0,
   "GET /x HTTP/1.1", "ua", "", ""⟩

/-- A well-shaped line whose first latency field is the negative
non-sentinel numeral `-2.5`. -/
def lineNeg : String :=
  "h 2024-01-02T03:04:05Z elb 1.2.3.4:80 10.0.0.1:8080 -2.5 0.2 0.1 200 200 100 200 \"GET /cart/ HTTP/1.1\" \"ua\" - -"

/-- A line whose backend target field `2001:db8::1:443` contains several
colons. -/
def lineColons : String :=
  "h 2024-01-02T03:04:05Z elb 5.6.7.8:443 2001:db8::1:443 0.1 0.2 0.2 200 200 100 200 \"GET /cart/ HTTP/1.1\" \"ua\" - -"

/-- A line with ordinary single-colon `host:port` fields. -/
def lineHosts : String :=
  "h 2024-01-02T03:04:05Z elb 1.2.3.4:80 10.0.0.9:8080 0.1 0.2 0.2 200 200 100 200 \"GET /cart/ HTTP/1.1\" \"ua\" - -"

/-- The capture groups of `lineHosts`. -/
def gHosts : ELBGroups :=
  ⟨"h", "2024-01-02T03:04:05Z", "elb", "1.2.3.4:80", "10.0.0.9:8080", "0.1",
   "0.2", "0.2", "200", "200", "100", "200", "GET /cart/ HTTP/1.1", "ua",
   "-", "-"⟩

/-- The record parsed from `lineHosts`. -/
def rHosts : LogRecord :=
  ⟨"2024-01-02T03:04:05Z", "1.2.3.4", some "10.0.0.9", mkRat 1 10, mkRat 1 5,
   mkRat 1 5, some 200, some 200, 100, 200, "GET /cart/ HTTP/1.1", "ua",
   "", ""⟩

/-! ### Parser lemmas -/

/-- A line rejected by the regex is a parse failure. -/
lemma parse_none_of_match_none {s : String} (h : matchELB s = none) :
    parse_log_line s = none := by
  unfold parse_log_line
  rw [h, Option.none_bind]

/-- Field-level description of a successful parse: the host fields keep
the text before the first colon (with `-` mapped to an absent backend
host), and a literal `-1` latency group yields the `-1` sentinel value. -/
lemma parse_some_fields {s : String} {g : ELBGroups} {r : LogRecord}
    (hm : matchELB s = some g) (hp : parse_log_line s = some r) :
    r.client_ip = beforeColon g.client ∧
    r.target_ip = (if g.target = "-" then none else some (beforeColon g.target)) ∧
    (g.reqTime = "-1" → r.request_processing_time = -1) ∧
    (g.backTime = "-1" → r.backend_processing_time = -1) ∧
    (g.respTime = "-1" → r.response_processing_time = -1) := by
  unfold parse_log_line at hp
  rw [hm, Option.some_bind] at hp
  obtain ⟨rqt, h1, hp⟩ := Option.bind_eq_some.mp hp
  obtain ⟨bqt, h2, hp⟩ := Option.bind_eq_some.mp hp
  obtain ⟨rst, h3, hp⟩ := Option.bind_eq_some.mp hp
  obtain ⟨elbS, h4, hp⟩ := Option.bind_eq_some.mp hp
  obtain ⟨backS, h5, hp⟩ := Option.bind_eq_some.mp hp
  obtain ⟨rb, h6, hp⟩ := Option.bind_eq_some.mp hp
  obtain ⟨sb, h7, hp⟩ := Option.bind_eq_some.mp hp
  cases Option.some.inj hp
  refine ⟨rfl, rfl, ?_, ?_, ?_⟩
  · intro hq; rw [if_pos hq] at h1; exact (Option.some.inj h1).symm
  · intro hq; rw [if_pos hq] at h2; exact (Option.some.inj h2).symm
  · intro hq; rw [if_pos hq] at h3; exact (Option.some.inj h3).symm

/-- Claim C3: for every input string, `parse_log_line` returns either a
record or the failure marker `none`; a line that does not match the
sixteen-field shape fails, and so does a line whose required numeric
field holds non-sentinel, non-numeric text (shown for the first latency
field and for the backend-status field).  The embedding is a total pure
function, so no exception can escape and there are no side effects. -/
theorem c3_parse_totality (s : String) :
    (parse_log_line s = none ∨ ∃ r, parse_log_line s = some r) ∧
    (matchELB s = none → parse_log_line s = none) ∧
    (∀ g, matchELB s = some g → g.reqTime ≠ "-1" → pyFloat g.reqTime = none →
      parse_log_line s = none) ∧
    (∀ g, matchELB s = some g → g.backStatus ≠ "-" → pyInt g.backStatus = none →
      parse_log_line s = none) := by
  refine ⟨?_, fun h => parse_none_of_match_none h, ?_, ?_⟩
  · cases h : parse_log_line s with
    | none => exact Or.inl rfl
    | some r => exact Or.inr ⟨r, rfl⟩
  · intro g hm hne hfl
    unfold parse_log_line
    rw [hm, Option.some_bind, if_neg hne, hfl, Option.none_bind]
  · intro g hm hne hfl
    unfold parse_log_line
    rw [hm, Option.some_bind]
    cases h1 : (if g.reqTime = "-1" then some (-1 : Rat) else pyFloat g.reqTime) with
    | none => rw [Option.none_bind]
    | some rqt =>
      rw [Option.some_bind]
      cases h2 : (if g.backTime = "-1" then some (-1 : Rat) else pyFloat g.backTime) with
      | none => rw [Option.none_bind]
      | some bqt =>
        rw [Option.some_bind]
        cases h3 : (if g.respTime = "-1" then some (-1 : Rat) else pyFloat g.respTime) with
        | none => rw [Option.none_bind]
        | some rst =>
          rw [Option.some_bind]
          cases h4 : (if g.elbStatus = "-" then some none else (pyInt g.elbStatus).map some) with
          | none => rw [Option.none_bind]
          | some elbS =>
            rw [Option.some_bind, if_neg hne, hfl]
            simp

/-- Witness for C3: the failure branches at concrete inputs — a
two-field line, a line with latency text `abc`, and a line with backend
status text `5O2`. -/
theorem c3_parse_totality_witness :
    parse_log_line lineShort = none ∧ parse_log_line lineBadNum = none ∧
    parse_log_line lineBadStatus = none :=
  ⟨(c3_parse_totality lineShort).2.1 (by decide),
   (c3_parse_totality lineBadNum).2.2.1 gBadNum (by decide) (by decide) (by decide),
   (c3_parse_totality lineBadStatus).2.2.2 gBadStatus (by decide) (by decide) (by decide)⟩

/-- Counterexample to claim C5 as stated: the parser keeps the text
before the FIRST colon, not the host portion before the last colon.  On
`lineColons`, whose target field is `2001:db8::1:443`, the stored
backend host is `2001`, while splitting on the last colon would retain
`2001:db8::1`. -/
theorem c5_first_colon_cex :
    (parse_log_line lineColons).map (fun r => r.target_ip) = some (some "2001") ∧
    ("2001" : String) ≠ "2001:db8::1" :=
  ⟨by decide, by decide⟩

/-- Claim C5 (amended): for every client or backend `host:port` field the
parser splits on the FIRST colon and retains only the portion before it
(`beforeColon`); the sentinel `-` in the backend host field maps to an
absent backend host. -/
theorem c5_host_fields (s : String) (g : ELBGroups) (r : LogRecord)
    (hm : matchELB s = some g) (hp : parse_log_line s = some r) :
    r.client_ip = beforeColon g.client ∧
    r.target_ip = (if g.target = "-" then none else some (beforeColon g.target)) :=
  ⟨(parse_some_fields hm hp).1, (parse_some_fields hm hp).2.1⟩

/-- Witness for C5 on `lineHosts`, whose fields are ordinary
`host:port` pairs. -/
theorem c5_host_fields_witness :
    rHosts.client_ip = "1.2.3.4" ∧ rHosts.target_ip = some "10.0.0.9" := by
  have h := c5_host_fields lineHosts gHosts rHosts (by decide) (by decide)
  exact ⟨h.1.trans (by decide), h.2.trans (by decide)⟩

/-- Counterexample to claim C4 as stated: a latency field holding the
negative non-sentinel numeral `-2.5` parses successfully into the
negative latency `-5/2`, which is neither a non-negative duration nor
the `-1` sentinel. -/
theorem c4_negative_latency_cex :
    (parse_log_line lineNeg).map (fun r => r.request_processing_time) =
      some (mkRat (-5) 2) ∧
    mkRat (-5) 2 < 0 ∧ mkRat (-5) 2 ≠ -1 :=
  ⟨by decide, by decide, by decide⟩

/-- Claim C4 (amended): the literal `-1` sentinel in any of the three
latency groups maps to the defined unmeasured value `-1` rather than a
parse failure, and every value in the success and error latency sample
sequences (hence every mean and maximum over them) is positive; the
record's latency fields themselves, however, are not guaranteed
non-negative (see the counterexample). -/
theorem c4_sentinel_and_positive_samples :
    (∀ s g r, matchELB s = some g → parse_log_line s = some r →
      (g.reqTime = "-1" → r.request_processing_time = -1) ∧
      (g.backTime = "-1" → r.backend_processing_time = -1) ∧
      (g.respTime = "-1" → r.response_processing_time = -1)) ∧
    (∀ rs x, x ∈ (aggState rs).successLat → 0 < x) ∧
    (∀ rs x, x ∈ (aggState rs).errorLat → 0 < x) := by
  refine ⟨fun s g r hm hp => (parse_some_fields hm hp).2.2, ?_, ?_⟩
  · intro rs x hx
    simp only [aggState] at hx
    obtain ⟨c, _, hfc⟩ := List.mem_filterMap.mp hx
    by_cases h : 0 < combinedLatency c.base
    · rw [if_pos h] at hfc
      cases Option.some.inj hfc
      exact h
    · rw [if_neg h] at hfc
      exact absurd hfc (by simp)
  · intro rs x hx
    simp only [aggState] at hx
    obtain ⟨c, _, hfc⟩ := List.mem_filterMap.mp hx
    by_cases h : 0 < combinedLatency c.base
    · rw [if_pos h] at hfc
      cases Option.some.inj hfc
      exact h
    · rw [if_neg h] at hfc
      exact absurd hfc (by simp)

/-- The classified form of `r502`. -/
def c502 : CRecord :=
  ⟨r502, "/checkout/payment", FunnelStage.PaymentProcessing,
   PatternCategory.CheckoutProcess, false, false⟩

/-- Concrete success-latency sequence for the single record `rOk`. -/
lemma successLat_rOk : (aggState [rOk]).successLat = [combinedLatency rOk] := by
  have hfil : (checkout_requests [rOk]).filter (fun c => decide (bscVal c.base < 400)) = [cOk] := by
    decide
  have hpos : (0:Rat) < combinedLatency rOk := by
    norm_num [combinedLatency, rOk, mkRat, Rat.normalize, Rat.maybeNormalize]
  simp only [aggState]
  rw [hfil]
  simp only [List.filterMap_cons, List.filterMap_nil, cOk]
  rw [if_pos hpos]

/-- Concrete error-latency sequence for the single record `r502`. -/
lemma errorLat_r502 : (aggState [r502]).errorLat = [combinedLatency r502] := by
  have herr : checkout_errors [r502] = [c502] := by decide
  have hpos : (0:Rat) < combinedLatency r502 := by
    norm_num [combinedLatency, r502, mkRat, Rat.normalize, Rat.maybeNormalize]
  simp only [aggState]
  rw [herr]
  simp only [List.filterMap_cons, List.filterMap_nil, c502]
  rw [if_pos hpos]

/-- Witness for C4: on `lineSent` all three sentinel latencies come out
as the `-1` marker, and the sample positivity parts applied to the
concrete streams `[rOk]` and `[r502]`. -/
theorem c4_sentinel_witness :
    rSent.request_processing_time = -1 ∧ rSent.backend_processing_time = -1 ∧
    rSent.response_processing_time = -1 ∧
    0 < combinedLatency rOk ∧ 0 < combinedLatency r502 := by
  have h1 := (c4_sentinel_and_positive_samples.1 lineSent gSent rSent
    (by decide) (by decide))
  refine ⟨h1.1 (by decide), h1.2.1 (by decide), h1.2.2 (by decide), ?_, ?_⟩
  · exact c4_sentinel_and_positive_samples.2.1 [rOk] (combinedLatency rOk)
      (by rw [successLat_rOk]; exact List.mem_singleton.mpr rfl)
  · exact c4_sentinel_and_positive_samples.2.2 [r502] (combinedLatency r502)
      (by rw [errorLat_r502]; exact List.mem_singleton.mpr rfl)

/-! ### Classification and read-time metric claims -/

/-- Claim C8: `categorize_checkout_stage` and `get_pattern_category` are
pure deterministic functions of the URL evaluated as ordered
first-match-wins chains; in particular `/cart/checkout/payment` lands in
`CartOperations` because the cart test precedes the payment test, even
though the payment test also matches this URL. -/
theorem c8_classification_chain :
    (∀ u v : String, u = v →
      categorize_checkout_stage u = categorize_checkout_stage v ∧
      get_pattern_category u = get_pattern_category v) ∧
    categorize_checkout_stage "/cart/checkout/payment" = FunnelStage.CartOperations ∧
    anyTerm (lowerStr "/cart/checkout/payment")
      ["payment", "pay", "billing", "paypal", "stripe", "credit"] = true ∧
    get_pattern_category "/cart/checkout/payment" = PatternCategory.ShoppingCart :=
  ⟨fun u v h => by rw [h]; exact ⟨rfl, rfl⟩, by decide, by decide, by decide⟩

/-- Witness for C8 at the concrete URL `/cart/add`. -/
theorem c8_classification_witness :
    categorize_checkout_stage "/cart/add" = categorize_checkout_stage "/cart/add" ∧
    get_pattern_category "/cart/add" = get_pattern_category "/cart/add" :=
  c8_classification_chain.1 "/cart/add" "/cart/add" rfl

/-- Claim C7: every reader guards division by a zero denominator, so a
bucket with zero checkout requests has error rate exactly `0`, an
overall summary with zero checkout requests reports `(0, 0)`, and the
traffic percentage with zero total requests is exactly `0` — never an
error value. -/
theorem c7_zero_denominator (tr c e : Nat) :
    bucket_error_rate e 0 = 0 ∧ overallSummary tr 0 e = (0, 0) ∧
    (overallSummary 0 c e).2 = 0 := by
  refine ⟨by simp [bucket_error_rate], by simp [overallSummary], ?_⟩
  by_cases h : 0 < c
  · simp [overallSummary, h]
  · simp [overallSummary, h]

/-- Claim C6: the day-over-day trend label compares consecutive daily
error rates against a half-point deadband — within (or at) the deadband
is stable, strictly above is worsening, strictly below is improving —
and on the rates 1.0, 1.3, 1.3, 0.7 the labels from day two onward are
stable, stable, improving. -/
theorem c6_trend_deadband :
    dailyTrendLabels [1, 13/10, 13/10, 7/10] =
      [Trend.stable, Trend.stable, Trend.better] ∧
    ∀ p c : Rat,
      (trendOf p c = Trend.worse ↔ p + 1/2 < c) ∧
      (trendOf p c = Trend.better ↔ c < p - 1/2) ∧
      (trendOf p c = Trend.stable ↔ p - 1/2 ≤ c ∧ c ≤ p + 1/2) := by
  constructor
  · norm_num [dailyTrendLabels, dailyTrendLabels.dailyTrendStep, trendOf]
  · intro p c
    unfold trendOf
    split_ifs with h1 h2
    · refine ⟨iff_of_true rfl h1, iff_of_false ?_ ?_, iff_of_false ?_ ?_⟩
      · simp
      · intro hc; linarith
      · simp
      · intro hc; linarith [hc.2]
    · refine ⟨iff_of_false ?_ ?_, iff_of_true rfl h2, iff_of_false ?_ ?_⟩
      · simp
      · intro hc; exact h1 hc
      · simp
      · intro hc; linarith [hc.1]
    · refine ⟨iff_of_false ?_ ?_, iff_of_false ?_ ?_,
        iff_of_true rfl ⟨not_lt.mp h2, not_lt.mp h1⟩⟩
      · simp
      · intro hc; exact h1 hc
      · simp
      · intro hc; exact h2 hc

/-! ### Ingestion claims -/

/-- Counterexample to claim C1 as stated: a record with no backend
status (here `rNone`, whose URL is even checkout-related) contributes
nothing to the global total-requests counter nor to its date and hour
total buckets — the backend-status filter runs before the totals are
incremented, not after. -/
theorem c1_unanalyzable_cex :
    (aggState [rNone]).totalRequests = 0 ∧
    (aggState [rNone]).dateTotal (dateOf rNone) = 0 ∧
    (aggState [rNone]).hourTotal (hourOf rNone) = 0 :=
  ⟨by decide, by decide, by decide⟩

/-- Claim C1 (amended): for every record that carries a (nonzero)
backend status — checkout-related or not — ingestion increments the
global total-requests counter and the record's date and hour total
counters, before the checkout-relevance filter; records with no backend
status are excluded from these totals, so the checkout-traffic
denominator is all analyzable requests rather than the raw stream. -/
theorem c1_totals_before_checkout_filter (r : LogRecord) (rs : List LogRecord)
    (h : analyzableB r = true) :
    (aggState (r :: rs)).totalRequests = (aggState rs).totalRequests + 1 ∧
    (aggState (r :: rs)).dateTotal (dateOf r) = (aggState rs).dateTotal (dateOf r) + 1 ∧
    (aggState (r :: rs)).hourTotal (hourOf r) = (aggState rs).hourTotal (hourOf r) + 1 := by
  have hall : all_requests (r :: rs) = r :: all_requests rs := by
    simp [all_requests, List.filter_cons, h]
  refine ⟨?_, ?_, ?_⟩ <;> simp [aggState, hall, List.countP_cons]

/-- Witness for C1 at the analyzable non-checkout record `rHome`. -/
theorem c1_totals_witness :
    (aggState [rHome]).totalRequests = (aggState []).totalRequests + 1 ∧
    (aggState [rHome]).dateTotal (dateOf rHome) = (aggState []).dateTotal (dateOf rHome) + 1 ∧
    (aggState [rHome]).hourTotal (hourOf rHome) = (aggState []).hourTotal (hourOf rHome) + 1 :=
  c1_totals_before_checkout_filter rHome [] (by decide)

/-- Counterexample to claim C2 as stated: `r404` is a checkout-related
analyzable record, is not an error in the `≥ 500` sense, and has
positive combined latency, yet the success-latency sample sequence
stays empty — the code's success cut-off is `< 400`, not `< 500`. -/
theorem c2_success_threshold_cex :
    (aggState [r404]).totalCheckout = 1 ∧ bscVal r404 < 500 ∧
    0 < combinedLatency r404 ∧ (aggState [r404]).successLat = [] := by
  refine ⟨by decide, by decide, ?_, by decide⟩
  norm_num [combinedLatency, r404, mkRat, Rat.normalize, Rat.maybeNormalize]

/-- Claim C2 (amended): for every checkout-related analyzable record
whose backend status is strictly below 400 and whose combined latency is
positive, the combined latency is appended to the success-latency sample
sequence (records with status in `[400, 500)` reach neither sequence). -/
theorem c2_success_latency_appended (rs : List LogRecord) (c : CRecord)
    (hc : c ∈ checkout_requests rs) (hs : bscVal c.base < 400)
    (ht : 0 < combinedLatency c.base) :
    combinedLatency c.base ∈ (aggState rs).successLat := by
  simp only [aggState]
  exact List.mem_filterMap.mpr
    ⟨c, List.mem_filter.mpr ⟨hc, by simpa using hs⟩, by rw [if_pos ht]⟩

/-- Witness for C2 at the concrete stream `[rOk]` and its classified
record `cOk` (status 200, combined latency 1/2). -/
theorem c2_success_latency_witness :
    combinedLatency cOk.base ∈ (aggState [rOk]).successLat :=
  c2_success_latency_appended [rOk] cOk (by decide) (by decide)
    (by norm_num [combinedLatency, cOk, rOk, mkRat, Rat.normalize, Rat.maybeNormalize])

/-! ### Aggregate algebra claims -/

/-- Claim C9: running the engine over a concatenated stream equals
running it over the two halves and merging — counters add, latency
sample sequences concatenate.  This is the shard-merge law that makes
the accumulators safely parallelizable. -/
theorem c9_accumulation_merge (xs ys : List LogRecord) :
    aggState (xs ++ ys) = mergeAgg (aggState xs) (aggState ys) := by
  have hall : all_requests (xs ++ ys) = all_requests xs ++ all_requests ys := by
    simp [all_requests, List.filter_append]
  have hck : checkout_requests (xs ++ ys) =
      checkout_requests xs ++ checkout_requests ys := by
    simp [checkout_requests, hall, List.filterMap_append]
  have herr : checkout_errors (xs ++ ys) =
      checkout_errors xs ++ checkout_errors ys := by
    simp [checkout_errors, hck, List.filter_append]
  unfold aggState mergeAgg
  congr 1 <;> simp [hall, hck, herr]

/-- Counting a filtered list cannot exceed counting the original. -/
lemma countP_filter_le {α : Type} (p q : α → Bool) (l : List α) :
    (l.filter q).countP p ≤ l.countP p := by
  induction l with
  | nil => simp
  | cons a l ih =>
    rw [List.filter_cons]
    by_cases hq : q a = true
    · rw [if_pos hq, List.countP_cons, List.countP_cons]
      omega
    · rw [if_neg hq, List.countP_cons]
      omega

/-- When the error count is bounded by the request count, the bucket
error rate is at most one hundred percent. -/
lemma rate_le_100 {e r : Nat} (h : e ≤ r) : bucket_error_rate e r ≤ 100 := by
  unfold bucket_error_rate
  split_ifs with hr
  · have hr' : (0 : Rat) < r := by exact_mod_cast hr
    have hdiv : (e : Rat) / r ≤ 1 := (div_le_one hr').mpr (by exact_mod_cast h)
    calc (e : Rat) / r * 100 ≤ 1 * 100 :=
          mul_le_mul_of_nonneg_right hdiv (by norm_num)
      _ = 100 := one_mul 100
  · norm_num

/-- Claim C10: each error counted in a funnel-stage or pattern-category
bucket comes from a record also counted in that bucket's request
counter, so per-bucket errors never exceed per-bucket requests, the
per-bucket error rate never exceeds 100%, and a bucket skipped for
having zero requests cannot be hiding nonzero errors. -/
theorem c10_bucket_errors_le_requests (rs : List LogRecord)
    (p : PatternCategory) (st : FunnelStage) :
    (aggState rs).catErr p ≤ (aggState rs).catReq p ∧
    (aggState rs).stageErr st ≤ (aggState rs).stageReq st ∧
    ((aggState rs).catReq p = 0 → (aggState rs).catErr p = 0) ∧
    bucket_error_rate ((aggState rs).catErr p) ((aggState rs).catReq p) ≤ 100 := by
  have hcat : (aggState rs).catErr p ≤ (aggState rs).catReq p := by
    simp only [aggState, checkout_errors]
    exact countP_filter_le _ _ _
  have hst : (aggState rs).stageErr st ≤ (aggState rs).stageReq st := by
    simp only [aggState, checkout_errors]
    exact countP_filter_le _ _ _
  exact ⟨hcat, hst, fun h0 => Nat.le_zero.mp (h0 ▸ hcat), rate_le_100 hcat⟩

/-- Witness for C10 on the concrete stream `[r502]` and the empty
`OtherCheckout` bucket. -/
theorem c10_bucket_witness :
    (aggState [r502]).catErr PatternCategory.OtherCheckout = 0 ∧
    bucket_error_rate ((aggState [r502]).catErr PatternCategory.OtherCheckout)
      ((aggState [r502]).catReq PatternCategory.OtherCheckout) ≤ 100 :=
  ⟨(c10_bucket_errors_le_requests [r502] PatternCategory.OtherCheckout
      FunnelStage.PaymentProcessing).2.2.1 (by decide),
   (c10_bucket_errors_le_requests [r502] PatternCategory.OtherCheckout
      FunnelStage.PaymentProcessing).2.2.2⟩
